import Mathlib

/-!
Verification of the consumer run-loop abstraction of the `abstract-backend`
repository, together with its logging configuration round-trip.

The consumer-loop implementation (`abe/backends/queue/consumer.py`,
class `AsyncLoopConsumer`) is not present in the source tree — only its
protocol (`abe/backends/message_queue/base/consumer.py`), its re-export
(`abe/backends/queue/base/protocol.py`) and its tests are. The
dispatch loop and the lifecycle state machine below are therefore modelled
from the specification (sections 3, 4.1, 4.2, 4.3, 6, 7 of the spec).
`LoggingConfig` (section C10) is embedded directly from
`src/abe/logging/settings.py`.
-/

namespace AbstractBackend

/-- Outcome of one handler invocation on one message: the handler either
completes, raises an ordinary (non-cancellation) error, or raises the
cancellation signal. -/
inductive HOutcome where
  | ok
  | err
  | cancelSig
deriving DecidableEq, Repr

/-- Log events emitted by the dispatch loop and by shutdown. -/
inductive LogEv (Msg : Type) where
  | handlerError (m : Msg)
  | cancelling
  | cancelledOk
  | alreadyComplete
  | timeoutShutdown
  | unexpectedShutdownError
deriving DecidableEq, Repr

/-- Events of the dispatch loop's execution trace: pulling a message from
the backend sequence, starting the handler on it, and the handler call
reaching completion-or-failure. -/
inductive DEv (Msg : Type) where
  | pull (m : Msg)
  | hstart (m : Msg)
  | hdone (m : Msg)
deriving DecidableEq, Repr

/-- How the dispatch loop (the background task's body) ended: the backend
sequence exhausted (normal finish), or a cancellation signal propagated
out of the loop. -/
inductive DEnd where
  | finished
  | cancelledSig
deriving DecidableEq, Repr

/-- Result of running the dispatch loop over a finite backend sequence:
the interleaved pull/handler trace, the messages delivered to the handler
(in delivery order), the log events, and how the loop ended. -/
structure DRes (Msg : Type) where
  trace : List (DEv Msg)
  delivered : List Msg
  logs : List (LogEv Msg)
  dEnd : DEnd
deriving DecidableEq, Repr

/-- Modelled from the spec: the dispatch loop of `AsyncLoopConsumer`
(spec section 4.2), whose code (`abe/backends/queue/consumer.py`) is absent
from the source tree. For each message pulled from the backend's sequence
the handler is invoked exactly once, synchronously; a handler error other
than the cancellation signal is caught, logged with the message context,
and the loop proceeds to the next message; a cancellation signal raised by
the handler propagates and terminates the loop. The handler is modelled by
the outcome it produces on each message. -/
def dispatchLoop (h : Msg → HOutcome) : List Msg → DRes Msg
  | [] => ⟨[], [], [], .finished⟩
  | m :: rest =>
    match h m with
    | .cancelSig =>
        ⟨[.pull m, .hstart m], [m], [], .cancelledSig⟩
    | .ok =>
        let r := dispatchLoop h rest
        ⟨.pull m :: .hstart m :: .hdone m :: r.trace, m :: r.delivered,
          r.logs, r.dEnd⟩
    | .err =>
        let r := dispatchLoop h rest
        ⟨.pull m :: .hstart m :: .hdone m :: r.trace, m :: r.delivered,
          .handlerError m :: r.logs, r.dEnd⟩

/-- Modelled from the spec: the backend capability at its boundary (spec
section 6). `items` is the finite message sequence one `consume` call
yields; `consumeCalls` records, in order, the `group` argument of every
invocation of the backend's consume operation. -/
structure Backend (Msg : Type) where
  items : List Msg
  consumeCalls : List (Option String)
deriving DecidableEq, Repr

/-- Phase of the background execution unit: scheduled but not yet having
run its dispatch loop, finished naturally (sequence exhausted), or
terminated by a propagated cancellation signal. -/
inductive TaskPhase where
  | scheduled
  | finishedNat
  | finishedCancel
deriving DecidableEq, Repr

/-- Modelled from the spec: the background task handle owned by the
consumer loop (spec sections 3 and 4.1), recording its phase and the
observable effects of its dispatch loop so far. -/
structure TaskH (Msg : Type) where
  phase : TaskPhase
  delivered : List Msg
  logs : List (LogEv Msg)
deriving DecidableEq, Repr

/-- Modelled from the spec: the `ConsumerLoop` entity (spec section 3),
whose implementation (`AsyncLoopConsumer` in
`abe/backends/queue/consumer.py`) is absent from the source tree:
`running` flag, optional `task` handle, shared backend reference, and the
immutable optional consumer `group`. -/
structure LoopState (Msg : Type) where
  running : Bool
  task : Option (TaskH Msg)
  backend : Backend Msg
  group : Option String
deriving DecidableEq, Repr

/-- Modelled from the spec: `run(handler)` (spec sections 4.1 and 6). If
the loop is already active it returns immediately as a no-op: no second
task is created and the backend's consume operation is not invoked again.
If idle, it invokes the backend's consume operation with the stored
`group` (recording the consumption start), creates and schedules the
background task, and returns once the task is scheduled — before any
message has been dispatched. The handler argument only affects the later
execution of the task, so `run` itself is independent of it. -/
def LoopState.run (s : LoopState Msg) : LoopState Msg :=
  if s.running then s
  else
    { s with
        running := true
        task := some ⟨TaskPhase.scheduled, [], []⟩
        backend :=
          { s.backend with consumeCalls := s.backend.consumeCalls ++ [s.group] } }

/-- Modelled from the spec: the background task, once scheduled by `run`,
executes the dispatch loop over the backend's message sequence to its
termination (spec section 4.2). When it terminates — naturally by
exhausting the sequence, or because a cancellation signal propagated — the
loop is no longer active, so the `running` flag no longer holds; the
finished task handle stays stored until `shutdown` clears it. -/
def LoopState.completeTask (h : Msg → HOutcome) (s : LoopState Msg) :
    LoopState Msg :=
  match s.task with
  | none => s
  | some t =>
    match t.phase with
    | TaskPhase.scheduled =>
        let r := dispatchLoop h s.backend.items
        { s with
            running := false
            task := some
              ⟨match r.dEnd with
                | DEnd.finished => TaskPhase.finishedNat
                | DEnd.cancelledSig => TaskPhase.finishedCancel,
                r.delivered, r.logs⟩ }
    | _ => s

/-- The exception observed while awaiting the cancelled background task
inside `shutdown`: the expected cancellation signal, a timeout raised by
the cancellation mechanism, or any other error surfacing from cleanup. -/
inductive AwaitErr where
  | cancelledSignal
  | timeout
  | other (e : String)
deriving DecidableEq, Repr

/-- Outcome of awaiting the task's termination during shutdown: either the
task had already finished, or awaiting it raises one of the `AwaitErr`
exceptions. This is the environment's choice; `shutdown` must absorb every
case. -/
def awaitCancelled (oc : Except AwaitErr Unit) : Except AwaitErr Unit := oc

/-- Result of a `shutdown()` call: the post-state, the exception that
propagated to the caller (if any), and the log entries written. -/
structure ShutdownResult (Msg : Type) where
  state : LoopState Msg
  raised : Option AwaitErr
  logs : List (LogEv Msg)
deriving DecidableEq, Repr

/-- Modelled from the spec: `shutdown()` (spec section 4.3). On an idle
loop (no stored task) it is a safe no-op. On a loop with a stored task it
requests cancellation and awaits the task; the await's outcome `oc` is
supplied by the environment. All three outcomes — task already finished,
the expected cancellation signal, and any other error (including a
timeout) — are caught and logged, never propagated, and in every case the
state is cleared: `running := false`, `task := none`. -/
def LoopState.shutdown (oc : Except AwaitErr Unit) (s : LoopState Msg) :
    ShutdownResult Msg :=
  match s.task with
  | none => ⟨{ s with running := false, task := none }, none, []⟩
  | some _ =>
    let cleared : LoopState Msg := { s with running := false, task := none }
    match awaitCancelled oc with
    | Except.ok _ => ⟨cleared, none, [LogEv.cancelling, LogEv.alreadyComplete]⟩
    | Except.error AwaitErr.cancelledSignal =>
        ⟨cleared, none, [LogEv.cancelling, LogEv.cancelledOk]⟩
    | Except.error AwaitErr.timeout =>
        ⟨cleared, none, [LogEv.cancelling, LogEv.timeoutShutdown]⟩
    | Except.error (AwaitErr.other _) =>
        ⟨cleared, none, [LogEv.cancelling, LogEv.unexpectedShutdownError]⟩

/-- **C2.** For every finite backend message sequence and every handler, if
the handler never raises the cancellation signal (it may fail with ordinary
errors on any number of messages), every message is delivered to the
handler, each failing message is logged with its context, and the stream is
never aborted: the loop ends by exhausting the sequence. -/
theorem dispatch_error_isolation (h : Msg → HOutcome) (msgs : List Msg)
    (hc : ∀ m ∈ msgs, h m ≠ HOutcome.cancelSig) :
    (dispatchLoop h msgs).delivered = msgs ∧
    (dispatchLoop h msgs).dEnd = DEnd.finished ∧
    (dispatchLoop h msgs).logs =
      (msgs.filter (fun m => h m = HOutcome.err)).map LogEv.handlerError := by
  induction msgs with
  | nil => simp [dispatchLoop]
  | cons m rest ih =>
    have hm : h m ≠ HOutcome.cancelSig := hc m (List.mem_cons_self m rest)
    have hrest : ∀ x ∈ rest, h x ≠ HOutcome.cancelSig :=
      fun x hx => hc x (List.mem_cons_of_mem m hx)
    obtain ⟨ih1, ih2, ih3⟩ := ih hrest
    cases hmo : h m with
    | cancelSig => exact absurd hmo hm
    | ok =>
      simp [dispatchLoop, hmo, ih1, ih2, ih3]
    | err =>
      simp [dispatchLoop, hmo, ih1, ih2, ih3]

/-- Closed witness for `dispatch_error_isolation`: a three-message sequence
whose handler fails on the middle message. -/
theorem dispatch_error_isolation_witness :
    (dispatchLoop (fun n : Nat => if n = 2 then HOutcome.err else HOutcome.ok)
        [1, 2, 3]).delivered = [1, 2, 3] ∧
    (dispatchLoop (fun n : Nat => if n = 2 then HOutcome.err else HOutcome.ok)
        [1, 2, 3]).dEnd = DEnd.finished ∧
    (dispatchLoop (fun n : Nat => if n = 2 then HOutcome.err else HOutcome.ok)
        [1, 2, 3]).logs =
      (([1, 2, 3] : List Nat).filter
          (fun m => (if m = 2 then HOutcome.err else HOutcome.ok) = HOutcome.err)).map
        LogEv.handlerError :=
  dispatch_error_isolation (fun n : Nat => if n = 2 then HOutcome.err else HOutcome.ok)
    [1, 2, 3] (by decide)

/-- **C3.** For every finite backend sequence whose handler calls complete
or fail (no cancellation signal), the execution trace of the dispatch loop
is exactly `pull m, start m, done m` for each message in the backend's
order: the handler is invoked exactly once per message, in the exact order
the sequence yields them, and the next message is pulled only after the
current handler call has completed or failed, so no two handler
invocations overlap. -/
theorem dispatch_order_sequential (h : Msg → HOutcome) (msgs : List Msg)
    (hc : ∀ m ∈ msgs, h m ≠ HOutcome.cancelSig) :
    (dispatchLoop h msgs).trace =
      msgs.flatMap (fun m => [DEv.pull m, DEv.hstart m, DEv.hdone m]) ∧
    (dispatchLoop h msgs).delivered = msgs := by
  induction msgs with
  | nil => simp [dispatchLoop]
  | cons m rest ih =>
    have hm : h m ≠ HOutcome.cancelSig := hc m (List.mem_cons_self m rest)
    have hrest : ∀ x ∈ rest, h x ≠ HOutcome.cancelSig :=
      fun x hx => hc x (List.mem_cons_of_mem m hx)
    obtain ⟨ih1, ih2⟩ := ih hrest
    cases hmo : h m with
    | cancelSig => exact absurd hmo hm
    | ok => simp [dispatchLoop, hmo, ih1, ih2]
    | err => simp [dispatchLoop, hmo, ih1, ih2]

/-- Closed witness for `dispatch_order_sequential` on a concrete
two-message sequence. -/
theorem dispatch_order_sequential_witness :
    (dispatchLoop (fun _ : Nat => HOutcome.ok) [1, 2]).trace =
      ([1, 2] : List Nat).flatMap
        (fun m => [DEv.pull m, DEv.hstart m, DEv.hdone m]) ∧
    (dispatchLoop (fun _ : Nat => HOutcome.ok) [1, 2]).delivered = [1, 2] :=
  dispatch_order_sequential (fun _ : Nat => HOutcome.ok) [1, 2] (by decide)

/-- **C7.** If the handler raises the cancellation signal on some message
(the first such message of the sequence), the signal is not caught by the
loop's error isolation: the loop ends with the cancellation propagating
out, the messages after the cancelling one are never pulled, and no
handler-error log entry is produced for the cancelling message. -/
theorem dispatch_cancel_propagates (h : Msg → HOutcome)
    (pre post : List Msg) (m : Msg)
    (hpre : ∀ x ∈ pre, h x ≠ HOutcome.cancelSig)
    (hm : h m = HOutcome.cancelSig) :
    (dispatchLoop h (pre ++ m :: post)).dEnd = DEnd.cancelledSig ∧
    (dispatchLoop h (pre ++ m :: post)).delivered = pre ++ [m] ∧
    (dispatchLoop h (pre ++ m :: post)).logs =
      (pre.filter (fun x => h x = HOutcome.err)).map LogEv.handlerError := by
  induction pre with
  | nil => simp [dispatchLoop, hm]
  | cons p rest ih =>
    have hp : h p ≠ HOutcome.cancelSig := hpre p (List.mem_cons_self p rest)
    have hrest : ∀ x ∈ rest, h x ≠ HOutcome.cancelSig :=
      fun x hx => hpre x (List.mem_cons_of_mem p hx)
    obtain ⟨ih1, ih2, ih3⟩ := ih hrest
    cases hpo : h p with
    | cancelSig => exact absurd hpo hp
    | ok => simp [dispatchLoop, hpo, ih1, ih2, ih3]
    | err => simp [dispatchLoop, hpo, ih1, ih2, ih3]

/-- Closed witness for `dispatch_cancel_propagates`: sequence `[1, 2, 3]`
whose handler cancels on message `2`. -/
theorem dispatch_cancel_propagates_witness :
    (dispatchLoop
        (fun n : Nat => if n = 2 then HOutcome.cancelSig else HOutcome.ok)
        ([1] ++ 2 :: [3])).dEnd = DEnd.cancelledSig ∧
    (dispatchLoop
        (fun n : Nat => if n = 2 then HOutcome.cancelSig else HOutcome.ok)
        ([1] ++ 2 :: [3])).delivered = [1] ++ [2] ∧
    (dispatchLoop
        (fun n : Nat => if n = 2 then HOutcome.cancelSig else HOutcome.ok)
        ([1] ++ 2 :: [3])).logs =
      (([1] : List Nat).filter
          (fun x => (if x = 2 then HOutcome.cancelSig else HOutcome.ok) = HOutcome.err)).map
        LogEv.handlerError :=
  dispatch_cancel_propagates
    (fun n : Nat => if n = 2 then HOutcome.cancelSig else HOutcome.ok)
    [1] [3] 2 (by decide) (by decide)

/-- `run` on an active loop is the identity. -/
theorem run_of_active (s : LoopState Msg) (h : s.running = true) :
    s.run = s := by
  simp [LoopState.run, h]

/-- After any `run` call the loop is active. -/
theorem run_running (s : LoopState Msg) : (s.run).running = true := by
  by_cases h : s.running <;> simp [LoopState.run, h]

/-- Iterating `run` on an already-started loop changes nothing. -/
theorem run_iterate_fixed (s : LoopState Msg) (n : Nat) :
    (LoopState.run)^[n] s.run = s.run := by
  induction n with
  | zero => rfl
  | succ k ih =>
    rw [Function.iterate_succ_apply, run_of_active s.run (run_running s), ih]

/-- **C1.** Starting from an idle loop, one `run` call followed by any
number of further `run` calls while active leaves the state exactly as
after the first call: no second task is ever created, and the backend's
consume operation is invoked exactly once (the call log grows by exactly
one entry, carrying the stored group) until the next shutdown. -/
theorem run_single_active_stream (s : LoopState Msg) (h : s.running = false)
    (n : Nat) :
    (LoopState.run)^[n + 1] s = s.run ∧
    ((LoopState.run)^[n + 1] s).backend.consumeCalls =
      s.backend.consumeCalls ++ [s.group] ∧
    ((LoopState.run)^[n + 1] s).task = some ⟨TaskPhase.scheduled, [], []⟩ := by
  have h1 : (LoopState.run)^[n + 1] s = s.run := by
    rw [Function.iterate_succ_apply]
    exact run_iterate_fixed s n
  refine ⟨h1, ?_, ?_⟩ <;> rw [h1] <;> simp [LoopState.run, h]

/-- Closed witness for `run_single_active_stream`: three consecutive `run`
calls on a concrete idle loop with group `"g"`. -/
theorem run_single_active_stream_witness :
    (LoopState.run)^[2 + 1]
        (⟨false, none, ⟨([5] : List Nat), []⟩, some "g"⟩ : LoopState Nat) =
      (⟨false, none, ⟨[5], []⟩, some "g"⟩ : LoopState Nat).run ∧
    ((LoopState.run)^[2 + 1]
        (⟨false, none, ⟨([5] : List Nat), []⟩, some "g"⟩ : LoopState Nat)).backend.consumeCalls =
      [] ++ [some "g"] ∧
    ((LoopState.run)^[2 + 1]
        (⟨false, none, ⟨([5] : List Nat), []⟩, some "g"⟩ : LoopState Nat)).task =
      some ⟨TaskPhase.scheduled, [], []⟩ :=
  run_single_active_stream ⟨false, none, ⟨[5], []⟩, some "g"⟩ rfl 2

/-- **C4.** For every await outcome — task already finished, the expected
cancellation signal, a timeout, or any other error during cancellation —
`shutdown` propagates nothing to its caller, and the post-state satisfies
`running = false` and `task = none`. -/
theorem shutdown_never_raises_clears (oc : Except AwaitErr Unit)
    (s : LoopState Msg) :
    (LoopState.shutdown oc s).raised = none ∧
    (LoopState.shutdown oc s).state.running = false ∧
    (LoopState.shutdown oc s).state.task = none := by
  rcases s with ⟨r, t, b, g⟩
  cases t with
  | none => simp [LoopState.shutdown]
  | some tk =>
    cases oc with
    | ok v => simp [LoopState.shutdown, awaitCancelled]
    | error e => cases e <;> simp [LoopState.shutdown, awaitCancelled]

/-- Closed witness for `shutdown_never_raises_clears` at a concrete active
state whose task raises an unexpected error during cancellation. -/
theorem shutdown_never_raises_clears_witness :
    (LoopState.shutdown (Except.error (AwaitErr.other "boom"))
        (⟨true, some ⟨TaskPhase.scheduled, [], []⟩, ⟨([1] : List Nat), [some "g"]⟩,
          some "g"⟩ : LoopState Nat)).raised = none ∧
    (LoopState.shutdown (Except.error (AwaitErr.other "boom"))
        (⟨true, some ⟨TaskPhase.scheduled, [], []⟩, ⟨([1] : List Nat), [some "g"]⟩,
          some "g"⟩ : LoopState Nat)).state.running = false ∧
    (LoopState.shutdown (Except.error (AwaitErr.other "boom"))
        (⟨true, some ⟨TaskPhase.scheduled, [], []⟩, ⟨([1] : List Nat), [some "g"]⟩,
          some "g"⟩ : LoopState Nat)).state.task = none :=
  shutdown_never_raises_clears (Except.error (AwaitErr.other "boom"))
    ⟨true, some ⟨TaskPhase.scheduled, [], []⟩, ⟨[1], [some "g"]⟩, some "g"⟩

/-- **C5.** `run` does not block until the dispatch loop completes: invoked
on an idle loop it returns with the background task merely scheduled — in
phase `scheduled`, with no message dispatched yet — and invoked on an
active loop it returns immediately with the state untouched. -/
theorem run_returns_without_blocking (s : LoopState Msg) :
    (s.running = false →
      (s.run).task = some ⟨TaskPhase.scheduled, [], []⟩ ∧
      (s.run).running = true) ∧
    (s.running = true → s.run = s) := by
  constructor
  · intro h
    simp [LoopState.run, h]
  · intro h
    exact run_of_active s h

/-- Closed witness for `run_returns_without_blocking`: a concrete idle
loop and a concrete active loop. -/
theorem run_returns_without_blocking_witness :
    ((⟨false, none, ⟨([7] : List Nat), []⟩, none⟩ : LoopState Nat).run.task =
        some ⟨TaskPhase.scheduled, [], []⟩ ∧
      (⟨false, none, ⟨([7] : List Nat), []⟩, none⟩ : LoopState Nat).run.running = true) ∧
    (⟨true, some ⟨TaskPhase.scheduled, [], []⟩, ⟨([7] : List Nat), [none]⟩,
        none⟩ : LoopState Nat).run =
      ⟨true, some ⟨TaskPhase.scheduled, [], []⟩, ⟨[7], [none]⟩, none⟩ :=
  ⟨(run_returns_without_blocking ⟨false, none, ⟨[7], []⟩, none⟩).1 rfl,
    (run_returns_without_blocking
      ⟨true, some ⟨TaskPhase.scheduled, [], []⟩, ⟨[7], [none]⟩, none⟩).2 rfl⟩

/-- **C6.** `shutdown` on an idle loop (no stored task, not running —
including one never started) propagates nothing, writes no log, and leaves
the state unchanged. -/
theorem shutdown_idle_noop (oc : Except AwaitErr Unit) (s : LoopState Msg)
    (hr : s.running = false) (ht : s.task = none) :
    LoopState.shutdown oc s = ⟨s, none, []⟩ := by
  rcases s with ⟨r, t, b, g⟩
  simp only at hr ht
  subst hr; subst ht
  simp [LoopState.shutdown]

/-- Closed witness for `shutdown_idle_noop` on a concrete never-started
loop. -/
theorem shutdown_idle_noop_witness :
    LoopState.shutdown (Except.ok ())
        (⟨false, none, ⟨([1, 2] : List Nat), []⟩, none⟩ : LoopState Nat) =
      ⟨⟨false, none, ⟨[1, 2], []⟩, none⟩, none, []⟩ :=
  shutdown_idle_noop (Except.ok ()) ⟨false, none, ⟨[1, 2], []⟩, none⟩ rfl rfl

/-- **C8.** A loop holding group `g` invokes the backend's consume
operation with exactly `g` on consumption start, and the group is
immutable: `run`, task completion, and `shutdown` all preserve it. -/
theorem group_passthrough (s : LoopState Msg) (h : s.running = false)
    (hf : Msg → HOutcome) (oc : Except AwaitErr Unit) :
    (s.run).backend.consumeCalls = s.backend.consumeCalls ++ [s.group] ∧
    (s.run).group = s.group ∧
    (s.completeTask hf).group = s.group ∧
    (LoopState.shutdown oc s).state.group = s.group := by
  refine ⟨?_, ?_, ?_, ?_⟩
  · simp [LoopState.run, h]
  · by_cases hr : s.running <;> simp [LoopState.run, hr]
  · rcases s with ⟨r, t, b, g⟩
    cases t with
    | none => simp [LoopState.completeTask]
    | some tk => cases tk with
      | mk ph dv lg => cases ph <;> simp [LoopState.completeTask]
  · rcases s with ⟨r, t, b, g⟩
    cases t with
    | none => simp [LoopState.shutdown]
    | some tk =>
      cases oc with
      | ok v => simp [LoopState.shutdown, awaitCancelled]
      | error e => cases e <;> simp [LoopState.shutdown, awaitCancelled]

/-- Closed witness for `group_passthrough` at a concrete loop with group
`"g"`. -/
theorem group_passthrough_witness :
    ((⟨false, none, ⟨([4] : List Nat), []⟩, some "g"⟩ : LoopState Nat).run.backend.consumeCalls =
        [] ++ [some "g"]) ∧
    (⟨false, none, ⟨([4] : List Nat), []⟩, some "g"⟩ : LoopState Nat).run.group = some "g" ∧
    ((⟨false, none, ⟨([4] : List Nat), []⟩, some "g"⟩ : LoopState Nat).completeTask
        (fun _ => HOutcome.ok)).group = some "g" ∧
    (LoopState.shutdown (Except.ok ())
        (⟨false, none, ⟨([4] : List Nat), []⟩, some "g"⟩ : LoopState Nat)).state.group =
      some "g" :=
  group_passthrough ⟨false, none, ⟨[4], []⟩, some "g"⟩ rfl
    (fun _ => HOutcome.ok) (Except.ok ())

/-- **C9.** If the backend's finite sequence exhausts (the handler never
raises the cancellation signal), the background task finishes on its own —
without any `shutdown` call the loop is no longer running and the stored
task is in phase `finishedNat` — and a subsequent `run` starts a new
stream: the loop becomes active again and the backend's consume operation
is invoked a second time with the same group. -/
theorem restart_after_completion (s : LoopState Msg) (hf : Msg → HOutcome)
    (hr : s.running = false) (ht : s.task = none)
    (hc : ∀ m ∈ s.backend.items, hf m ≠ HOutcome.cancelSig) :
    ((s.run).completeTask hf).running = false ∧
    (∃ t, ((s.run).completeTask hf).task = some t ∧
      t.phase = TaskPhase.finishedNat) ∧
    (((s.run).completeTask hf).run).running = true ∧
    (((s.run).completeTask hf).run).backend.consumeCalls =
      s.backend.consumeCalls ++ [s.group, s.group] := by
  have hd := (dispatch_error_isolation hf s.backend.items hc).2.1
  rcases s with ⟨r, t, b, g⟩
  simp only at hr ht hc hd
  subst hr; subst ht
  simp [LoopState.run, LoopState.completeTask, hd]

/-- Closed witness for `restart_after_completion`: a concrete one-message
backend whose handler always succeeds. -/
theorem restart_after_completion_witness :
    (((⟨false, none, ⟨([5] : List Nat), []⟩, some "g"⟩ : LoopState Nat).run.completeTask
        (fun _ => HOutcome.ok)).running = false) ∧
    (∃ t, ((⟨false, none, ⟨([5] : List Nat), []⟩, some "g"⟩ : LoopState Nat).run.completeTask
        (fun _ => HOutcome.ok)).task = some t ∧ t.phase = TaskPhase.finishedNat) ∧
    (((⟨false, none, ⟨([5] : List Nat), []⟩, some "g"⟩ : LoopState Nat).run.completeTask
        (fun _ => HOutcome.ok)).run.running = true) ∧
    (((⟨false, none, ⟨([5] : List Nat), []⟩, some "g"⟩ : LoopState Nat).run.completeTask
        (fun _ => HOutcome.ok)).run.backend.consumeCalls =
      [] ++ [some "g", some "g"]) :=
  restart_after_completion ⟨false, none, ⟨[5], []⟩, some "g"⟩
    (fun _ => HOutcome.ok) rfl rfl (by decide)

/-- A Python value as it appears in the configuration dictionary produced
by `LoggingConfig.to_dict` (`src/abe/logging/settings.py`): a string, an
integer, a boolean, `None`, or a string-to-string dict (the
`logger_levels` field). -/
inductive PyVal where
  | pstr (s : String)
  | pint (n : Int)
  | pbool (b : Bool)
  | pnone
  | pdict (d : List (String × String))
deriving DecidableEq, Repr

/-- The `LoggingConfig` dataclass of `src/abe/logging/settings.py`, field
for field. `logger_levels` (a Python `Dict[str, LogLevel]`) is embedded as
an association list. -/
structure LoggingConfig where
  level : String
  format : String
  date_format : String
  log_file : Option String
  log_dir : String
  max_bytes : Int
  backup_count : Int
  encoding : String
  enable_console : Bool
  enable_file : Bool
  use_json_formatter : Bool
  logger_levels : List (String × String)
  propagate : Bool
deriving DecidableEq, Repr

/-- `get_default_logging_config` / the dataclass field defaults of
`LoggingConfig` in `src/abe/logging/settings.py`. -/
def get_default_logging_config : LoggingConfig where
  level := "INFO"
  format := "%(asctime)s [%(levelname)8s] %(name)s: %(message)s"
  date_format := "%Y-%m-%d %H:%M:%S"
  log_file := none
  log_dir := "logs"
  max_bytes := 10 * 1024 * 1024
  backup_count := 5
  encoding := "utf-8"
  enable_console := true
  enable_file := false
  use_json_formatter := false
  logger_levels := []
  propagate := false

/-- `LoggingConfig.to_dict` (`src/abe/logging/settings.py` lines 142-162):
the dictionary literal with every field of the configuration, in the
source's key order. A `log_file` of `None` is emitted as the value
`None` under the `"log_file"` key. -/
def LoggingConfig.to_dict (c : LoggingConfig) : List (String × PyVal) :=
  [("level", PyVal.pstr c.level),
   ("format", PyVal.pstr c.format),
   ("date_format", PyVal.pstr c.date_format),
   ("log_file", match c.log_file with
     | some f => PyVal.pstr f
     | none => PyVal.pnone),
   ("log_dir", PyVal.pstr c.log_dir),
   ("max_bytes", PyVal.pint c.max_bytes),
   ("backup_count", PyVal.pint c.backup_count),
   ("encoding", PyVal.pstr c.encoding),
   ("enable_console", PyVal.pbool c.enable_console),
   ("enable_file", PyVal.pbool c.enable_file),
   ("use_json_formatter", PyVal.pbool c.use_json_formatter),
   ("logger_levels", PyVal.pdict c.logger_levels),
   ("propagate", PyVal.pbool c.propagate)]

/-- First value stored under key `k` in a Python dict modelled as an
association list. -/
def pyLookup (k : String) : List (String × PyVal) → Option PyVal
  | [] => none
  | (k2, v) :: rest => if k2 = k then some v else pyLookup k rest

/-- Keyword binding of a string-typed dataclass field: the value under the
key if present, the dataclass default otherwise. -/
def bindStr (d : List (String × PyVal)) (k : String) (dflt : String) : String :=
  match pyLookup k d with
  | some (PyVal.pstr s) => s
  | _ => dflt

/-- Keyword binding of the optional-string field `log_file`: an explicit
`None` value binds the field to `None`, as `cls(**d)` does. -/
def bindOptStr (d : List (String × PyVal)) (k : String) (dflt : Option String) :
    Option String :=
  match pyLookup k d with
  | some (PyVal.pstr s) => some s
  | some PyVal.pnone => none
  | _ => dflt

/-- Keyword binding of an integer-typed dataclass field. -/
def bindInt (d : List (String × PyVal)) (k : String) (dflt : Int) : Int :=
  match pyLookup k d with
  | some (PyVal.pint n) => n
  | _ => dflt

/-- Keyword binding of a boolean-typed dataclass field. -/
def bindBool (d : List (String × PyVal)) (k : String) (dflt : Bool) : Bool :=
  match pyLookup k d with
  | some (PyVal.pbool b) => b
  | _ => dflt

/-- Keyword binding of the `logger_levels` dict field. -/
def bindDict (d : List (String × PyVal)) (k : String)
    (dflt : List (String × String)) : List (String × String) :=
  match pyLookup k d with
  | some (PyVal.pdict m) => m
  | _ => dflt

/-- `LoggingConfig.from_dict` (`src/abe/logging/settings.py` lines
164-174): `cls(**config_dict)` — each dataclass field is bound to the
value stored under its key, falling back to the field's dataclass default
when the key is absent. (A key not naming any field would raise a
`TypeError` in Python; `to_dict` outputs carry only field keys, so that
path is not modelled.) -/
def LoggingConfig.from_dict (d : List (String × PyVal)) : LoggingConfig where
  level := bindStr d "level" "INFO"
  format := bindStr d "format" "%(asctime)s [%(levelname)8s] %(name)s: %(message)s"
  date_format := bindStr d "date_format" "%Y-%m-%d %H:%M:%S"
  log_file := bindOptStr d "log_file" none
  log_dir := bindStr d "log_dir" "logs"
  max_bytes := bindInt d "max_bytes" (10 * 1024 * 1024)
  backup_count := bindInt d "backup_count" 5
  encoding := bindStr d "encoding" "utf-8"
  enable_console := bindBool d "enable_console" true
  enable_file := bindBool d "enable_file" false
  use_json_formatter := bindBool d "use_json_formatter" false
  logger_levels := bindDict d "logger_levels" []
  propagate := bindBool d "propagate" false

/-- **C10.** `from_dict` is a left inverse of `to_dict`: for every
`LoggingConfig` value `c`, `LoggingConfig.from_dict (c.to_dict) = c` —
`to_dict` serializes every field and `from_dict` reconstructs an identical
configuration. -/
theorem from_dict_to_dict_roundtrip (c : LoggingConfig) :
    LoggingConfig.from_dict c.to_dict = c := by
  rcases c with ⟨lv, fm, df, lf, ld, mb, bc, en, ec, ef, uj, ll, pr⟩
  cases lf <;>
    simp [LoggingConfig.from_dict, LoggingConfig.to_dict, pyLookup,
      bindStr, bindOptStr, bindInt, bindBool, bindDict]

end AbstractBackend
